import Mathlib

/-
  Verification development for the covibes repository.

  Part 1 models the two advisory hooks described in the design document
  (their source is not part of src/, so the definitions are modelled from
  the spec, as marked in each doc comment).

  Part 2 is a shallow embedding of src/create_colabvibe_presentation.py:
  the slide-deck builder, its literal table, and the layout decisions made
  per slide.
-/

namespace Covibes

/-! ### Part 1: the hook pipeline (modelled from the spec) -/

/-- Modelled from the spec: the payload a hook receives on its standard
input stream.  The host may pipe a structured (key/value) payload, pipe
bytes that do not parse as structured data, or pipe nothing at all
(interactive invocation). -/
inductive StdinPayload where
  | absent : StdinPayload
  | malformed : String → StdinPayload
  | parsed : List (String × String) → StdinPayload
deriving DecidableEq

/-- Modelled from the spec: the fixed advisory template the Prompt
Augmentation Hook always emits (the spec fixes its role — instruct the
downstream model consumer to verify claims of completion with concrete
evidence — not its exact wording; only its fixedness matters here). -/
def advisoryTemplate : String :=
  "Before claiming a task is complete, verify the claim with concrete evidence (test runs, command output, or file contents) instead of asserting success."

/-- The structured object a hook writes to standard output. -/
structure HookSpecificOutput where
  hookEventName : String
  additionalContext : String
deriving DecidableEq

/-- The observable result of one Prompt Augmentation Hook invocation: the
single structured output object and the process exit status. -/
structure PromptHookResult where
  output : HookSpecificOutput
  exitCode : Nat
deriving DecidableEq

/-- Modelled from the spec: the Prompt Augmentation Hook.  It reads the
payload, substituting an empty object when input is absent or cannot be
parsed, performs no semantic analysis of the payload, and unconditionally
writes one output object tagged with the event kind and carrying the fixed
advisory template; it terminates with exit status 0 on every path. -/
def promptHook (input : StdinPayload) : PromptHookResult :=
  let _payload : List (String × String) :=
    match input with
    | StdinPayload.absent => []
    | StdinPayload.malformed _ => []
    | StdinPayload.parsed fields => fields
  { output := { hookEventName := "UserPromptSubmit"
                additionalContext := advisoryTemplate }
    exitCode := 0 }

/-- Modelled from the spec: the ambient signals the Git Operation Validator
Hook consumes — the environment variable naming the git subcommand, the
environment variable carrying the proposed commit message, and the result
of the version-control branch query (`none` when the query fails: non-zero
exit, tool missing, or not inside a repository). -/
structure GitHookInput where
  gitCommand : Option String
  commitMessage : Option String
  branchQueryResult : Option String
deriving DecidableEq

/-- The observable result of one Git Operation Validator Hook invocation:
whether the branch-warning advisory was emitted, whether the
message-format suggestion was emitted, and the process exit status. -/
structure GitHookResult where
  branchWarning : Bool
  messageSuggestion : Bool
  exitCode : Nat
deriving DecidableEq

/-- The protected branch names that trigger the advisory warning. -/
def protectedBranches : List String := ["main", "master"]

/-- The fixed set of recognized conventional-commit message tags. -/
def conventionalTags : List String :=
  ["feat:", "fix:", "docs:", "style:", "refactor:", "test:", "chore:", "perf:", "ci:", "build:"]

/-- Modelled from the spec: the Git Operation Validator Hook.  The branch
check warns exactly when the branch query succeeded and returned one of
the protected names; a failed query is "no opinion" and skips the check.
The commit-message check runs only when the subcommand is a commit and a
message is present, and suggests a format exactly when the message starts
with none of the recognized tags.  Every path exits with status 0. -/
def gitValidatorHook (inp : GitHookInput) : GitHookResult :=
  let branchWarning : Bool :=
    match inp.branchQueryResult with
    | none => false
    | some branch => protectedBranches.contains branch
  let messageSuggestion : Bool :=
    if inp.gitCommand = some "commit" then
      match inp.commitMessage with
      | none => false
      | some msg => ! conventionalTags.any (fun tag => msg.startsWith tag)
    else false
  { branchWarning := branchWarning
    messageSuggestion := messageSuggestion
    exitCode := 0 }

/-! ### Part 2: embedding of src/create_colabvibe_presentation.py -/

/-- English Metric Units per inch, the unit python-pptx stores lengths in. -/
def emuPerInch : Nat := 914400

/-- Embeds pptx.util.Inches for whole-inch arguments. -/
def inches (n : Nat) : Nat := n * emuPerInch

/-- Embeds pptx.util.Inches for a fractional argument given as num/den;
every fraction used by the script yields an exact EMU count. -/
def inchesFrac (num den : Nat) : Nat := num * emuPerInch / den

/-- Embeds pptx.util.Pt: one point is 12700 EMU. -/
def pt (n : Nat) : Nat := n * 12700

/-- Embeds the PP_ALIGN values the script uses. -/
inductive Align where
  | left : Align
  | center : Align
deriving DecidableEq

/-- Embeds the MSO_ANCHOR values the script uses. -/
inductive Anchor where
  | top : Anchor
  | middle : Anchor
deriving DecidableEq

/-- Embeds the Python membership test `"•" in content` for the
single-character bullet string: true exactly when the character occurs in
the string. -/
def containsChar (s : String) (c : Char) : Bool := s.data.contains c

/-- One generated slide: the attributes the script sets on the title
textbox, the content textbox and the content text frame. -/
structure Slide where
  titleText : String
  titleTop : Nat
  titleFontSize : Nat
  titleBold : Bool
  titleAlign : Align
  titleColor : Nat × Nat × Nat
  contentText : String
  contentTop : Nat
  contentHeight : Nat
  contentFontSize : Nat
  contentAlign : Align
  contentAnchor : Anchor
  contentSpaceAfter : Nat
  boxLeft : Nat
  boxWidth : Nat
  titleHeight : Nat
deriving DecidableEq

/-- The generated presentation: page size in EMU and the slide list. -/
structure Presentation where
  slide_width : Nat
  slide_height : Nat
  slides : List Slide
deriving DecidableEq

/-- The default python-pptx template: a 10 by 7.5 inch page and no slides. -/
def Presentation.new : Presentation :=
  { slide_width := inches 10, slide_height := inchesFrac 15 2, slides := [] }

/-- Embeds prs.slides.add_slide: appends one slide to the document. -/
def addSlide (p : Presentation) (s : Slide) : Presentation :=
  { p with slides := p.slides ++ [s] }

/-- The literal slides_data table of the script, transcribed verbatim. -/
def slides_data : List (String × String) :=
  [("ColabVibe", "The AI Workforce Platform\n\nFrom single-player AI assistants to a multi-player AI workforce.\n\n(Tromsø, September 2025)"),
   ("The Problem", "AI Development is Trapped in a Single-User Paradigm\n\nToday\x27s AI is a personal tool, not a team member. This creates bottlenecks and stops progress when the developer logs off."),
   ("The Solution", "The First Team-Wide AI Workforce Platform\n\nCore Features:\n• Team-Wide Spawning: Anyone can deploy AI agents\n• Shared Context: Agents access the full workspace\n• Mobile-First Orchestration: Manage from anywhere"),
   ("The Paradigm Shift", "Software is Moving From MS Word to Google Docs\n\nPast: Grammar checker in a private .doc file (helps one person).\nFuture: Shared, live workspace where AI agents are collaborators.\n\nWe are doing for AI development what Google Docs did for documents."),
   ("How It Works", "Fixing a Critical Bug: Hours vs. Minutes\n\nToday (AI-Assisted):\n👨‍💻 Human-driven (Dev at desk)\n💡 AI Assists (Autocomplete)\n⏳ Sequential & Slow\n\nWith ColabVibe (AI Workforce):\n📱 Human-Directed (PM on phone)\n🤖 AI Acts (Autonomous fix)\n⚡ Parallel & Fast"),
   ("The Product", "Multi-Agent Collaboration in Action\n\nHighlights from Demo:\n• Parallel Work: Agent A updates frontend while Agent B updates backend\n• Real-Time Visibility: Team sees live progress\n• Human-in-the-Loop: Developer approves deployment\n\nWatch the demo: www.youtube.com/your-video-link"),
   ("Market Opportunity", "Creating a New Category: AI Workforce Management\n\n$26B+ Developer Tools Market\n100M+ Developers Worldwide\n92% of developers use AI, but in isolation.\n\nTrend: Remote work demands collaborative, always-on development."),
   ("Go-to-Market Strategy", "Our Plan for the First 1,000 Users\n\nPhase 1 (Alpha): 15 Norwegian tech companies as design partners\nPhase 2 (Beta): Product Hunt, Hacker News, technical content\nPhase 3 (Public): Developer communities & referrals"),
   ("Business Model", "AI Workforce-as-a-Service (WaaS)\n\nPricing Tiers:\n• Starter (small teams)\n• Professional (growing businesses)\n• Enterprise (large-scale needs)\n\nModel: Simple per-user, per-month subscription"),
   ("Competitive Advantage", "Why We Win: Built for Teams\n\n• Multi-Agent Coordination: Competitors are single-player\n• Shared Workspace Context: Our agents have full access\n• Mobile-First Orchestration: Competitors are desktop-only"),
   ("The Team", "The Team to Build the Future of Development\n\n[Add founder headshots, names, titles, and 2-3 accomplishments each]"),
   ("Vision & Roadmap", "Vision: AI Teams That Work While You Sleep\n\nNow: Any team member can spawn AI agents\n12 Months: Agents collaborate with each other\n24 Months+: Fully autonomous AI teams managed by human orchestration"),
   ("The Ask & Use of Funds", "Join Us in Building the Future\n\nFunding Ask: We are raising $[Amount] to achieve 12-month milestones\n\nUse of Funds:\n• 60% Product & Engineering (hire 3 developers in Tromsø)\n• 25% Go-to-Market (hire 1 marketer in Norway)\n• 15% Operations"),
   ("Contact", "ColabVibe\n\nReady for a Live Demo?\n\nContact: [Your Name], [Your Email], [colabvibe.com]\n\nThe future of development isn\x27t just AI-assisted—it\x27s AI-workforce managed.")]

/-- Embeds the body of the for loop of create_presentation: builds the
slide generated for one (title, content) entry, mirroring each assignment
of the source in order, including the later override block for the slide
titled ColabVibe. -/
def buildSlide (td : String × String) : Slide :=
  let title := td.1
  let content := td.2
  let left := inchesFrac 1 2
  let top := if title = "ColabVibe" then inchesFrac 3 10 else inchesFrac 1 5
  let width := inches 9
  let height := inchesFrac 6 5
  let tSize := if title = "ColabVibe" then pt 44 else pt 36
  let contentTop := if title = "ColabVibe" then inchesFrac 9 5 else inchesFrac 6 5
  let contentHeight := inchesFrac 7 2
  let cSize := if title = "ColabVibe" then pt 20 else pt 18
  let cAlign := if containsChar content '•' then Align.left else Align.center
  let cAnchor := if containsChar content '•' then Anchor.top else Anchor.middle
  let cAlign := if title = "ColabVibe" then Align.center else cAlign
  let cSize := if title = "ColabVibe" then pt 24 else cSize
  let cAnchor := if title = "ColabVibe" then Anchor.middle else cAnchor
  { titleText := title
    titleTop := top
    titleFontSize := tSize
    titleBold := true
    titleAlign := Align.center
    titleColor := (0, 51, 102)
    contentText := content
    contentTop := contentTop
    contentHeight := contentHeight
    contentFontSize := cSize
    contentAlign := cAlign
    contentAnchor := cAnchor
    contentSpaceAfter := pt 6
    boxLeft := left
    boxWidth := width
    titleHeight := height }

/-- Embeds create_presentation: start from the default template, set the
16:9 page size, then add one slide per slides_data entry in order. -/
def create_presentation : Presentation :=
  let prs := Presentation.new
  let prs := { prs with slide_width := inches 10 }
  let prs := { prs with slide_height := inchesFrac 45 8 }
  slides_data.foldl (fun p td => addSlide p (buildSlide td)) prs

/-- The slide at position i of the generated presentation (a dummy slide
is the out-of-range default; every use stays below the slide count). -/
def nthSlide (i : Nat) : Slide :=
  create_presentation.slides.getD i (buildSlide ("", ""))

end Covibes

namespace Covibes

/-- C1: every invocation of either hook, on every execution path of the
model — absent, malformed or parsed input for the prompt hook; any
combination of subcommand, message and branch-query outcome for the git
hook — terminates with exit status 0. -/
theorem hooks_always_exit_zero :
    (∀ p : StdinPayload, (promptHook p).exitCode = 0) ∧
    (∀ g : GitHookInput, (gitValidatorHook g).exitCode = 0) := by
  constructor
  · intro p; cases p <;> rfl
  · intro g; rfl

/-- C2: for every input payload — absent, malformed, or parsed — the
Prompt Augmentation Hook exits with status 0 and writes the single output
object whose additionalContext is the fixed advisory template; the whole
result is identical across all inputs, so in particular a malformed
payload yields exactly the output of the empty-input case. -/
theorem prompt_hook_input_invariance :
    ∀ p : StdinPayload,
      (promptHook p).exitCode = 0 ∧
      (promptHook p).output.additionalContext = advisoryTemplate ∧
      (promptHook p).output.hookEventName = "UserPromptSubmit" ∧
      promptHook p = promptHook StdinPayload.absent := by
  intro p
  cases p <;> exact ⟨rfl, rfl, rfl, rfl⟩

/-- C4: on a commit event, when a commit message is present the
message-format suggestion is emitted exactly when the message starts with
none of the ten recognized conventional-commit tags, and when no message
is present the check is skipped and no suggestion is emitted. -/
theorem commit_message_check_iff :
    ∀ (msg : String) (b : Option String),
      ((gitValidatorHook ⟨some "commit", some msg, b⟩).messageSuggestion = true ↔
        ¬ (msg.startsWith "feat:" ∨ msg.startsWith "fix:" ∨ msg.startsWith "docs:" ∨
           msg.startsWith "style:" ∨ msg.startsWith "refactor:" ∨ msg.startsWith "test:" ∨
           msg.startsWith "chore:" ∨ msg.startsWith "perf:" ∨ msg.startsWith "ci:" ∨
           msg.startsWith "build:")) ∧
      (gitValidatorHook ⟨some "commit", none, b⟩).messageSuggestion = false := by
  intro msg b
  constructor
  · simp [gitValidatorHook, conventionalTags, List.any, Bool.or_eq_true, not_or]
  · rfl

/-- C5: when the branch query succeeds, the Git Operation Validator Hook
emits the branch-warning advisory exactly when the returned branch name is
one of the protected names main or master, and it exits with status 0 in
both cases. -/
theorem branch_warning_iff_protected :
    ∀ (cmd msg : Option String) (branch : String),
      ((gitValidatorHook ⟨cmd, msg, some branch⟩).branchWarning = true ↔
        (branch = "main" ∨ branch = "master")) ∧
      (gitValidatorHook ⟨cmd, msg, some branch⟩).exitCode = 0 := by
  intro cmd msg branch
  constructor
  · simp [gitValidatorHook, protectedBranches, List.contains]
  · rfl

/-- C6: whenever the branch query fails (modelled as an absent query
result), the branch check is skipped — no warning is emitted — and the
hook still exits with status 0, for every subcommand and message. -/
theorem branch_query_failure_skips_check :
    ∀ (cmd msg : Option String),
      (gitValidatorHook ⟨cmd, msg, none⟩).branchWarning = false ∧
      (gitValidatorHook ⟨cmd, msg, none⟩).exitCode = 0 := by
  intro cmd msg
  exact ⟨rfl, rfl⟩

/-- C7: both hooks are deterministic — any two invocations given identical
input payloads, identical environment signals and identical branch-query
results produce identical observable results; no other state influences
the outcome, since each result is a function of exactly these inputs. -/
theorem hooks_deterministic :
    (∀ p q : StdinPayload, p = q → promptHook p = promptHook q) ∧
    (∀ g h : GitHookInput, g = h → gitValidatorHook g = gitValidatorHook h) := by
  constructor
  · intro p q hpq; rw [hpq]
  · intro g h hgh; rw [hgh]

/-- Witness for C7: determinism applied to a concrete pair of identical
invocations of each hook. -/
theorem hooks_deterministic_witness :
    promptHook StdinPayload.absent = promptHook StdinPayload.absent ∧
    gitValidatorHook ⟨some "commit", none, some "main"⟩ =
      gitValidatorHook ⟨some "commit", none, some "main"⟩ :=
  ⟨hooks_deterministic.1 StdinPayload.absent StdinPayload.absent rfl,
   hooks_deterministic.2 ⟨some "commit", none, some "main"⟩ ⟨some "commit", none, some "main"⟩ rfl⟩

/-- C3: the slide-deck generator is a pure converter of the fixed literal
table — create_presentation takes no parameters and its slide list is
exactly the image of slides_data under the per-entry slide builder, so
every slide is determined solely by the table and any two runs agree. -/
theorem slides_determined_by_table :
    create_presentation.slides = slides_data.map buildSlide := by
  rfl

/-- C8: the generated presentation has exactly one slide per entry of the
14-entry slides_data table, in order: projecting each slide to the text of
its title textbox and its content textbox recovers the table itself. -/
theorem one_slide_per_entry :
    create_presentation.slides.length = 14 ∧
    slides_data.length = 14 ∧
    create_presentation.slides.map (fun s => (s.titleText, s.contentText)) = slides_data := by
  refine ⟨rfl, rfl, rfl⟩

/-- C9: the page size of the generated presentation is Inches(10) by
Inches(5.625), that is 9144000 by 5143500 EMU, which satisfies the exact
16:9 relation, and adding a slide never alters the page size, so the size
set before the slide loop is the size of the finished document. -/
theorem page_size_16_9 :
    create_presentation.slide_width = 9144000 ∧
    create_presentation.slide_height = 5143500 ∧
    create_presentation.slide_width = inches 10 ∧
    create_presentation.slide_height = inchesFrac 45 8 ∧
    9 * create_presentation.slide_width = 16 * create_presentation.slide_height ∧
    (∀ (p : Presentation) (s : Slide),
      (addSlide p s).slide_width = p.slide_width ∧
      (addSlide p s).slide_height = p.slide_height) := by
  exact ⟨rfl, rfl, rfl, rfl, rfl, fun p s => ⟨rfl, rfl⟩⟩

/-- C10: on every generated slide not titled ColabVibe, the content
paragraph is left-aligned with top anchor exactly when the content
contains the bullet character, center-aligned with middle anchor exactly
otherwise, and the title is 36pt; the slide titled ColabVibe has a
center-aligned 24pt content paragraph with middle anchor and a 44pt
title. -/
theorem content_formatting :
    ∀ i : Fin 14,
      ((nthSlide i.val).titleText ≠ "ColabVibe" →
        (((nthSlide i.val).contentAlign = Align.left ∧
          (nthSlide i.val).contentAnchor = Anchor.top) ↔
          containsChar (nthSlide i.val).contentText '•' = true) ∧
        (((nthSlide i.val).contentAlign = Align.center ∧
          (nthSlide i.val).contentAnchor = Anchor.middle) ↔
          ¬ containsChar (nthSlide i.val).contentText '•' = true) ∧
        (nthSlide i.val).titleFontSize = pt 36) ∧
      ((nthSlide i.val).titleText = "ColabVibe" →
        (nthSlide i.val).contentAlign = Align.center ∧
        (nthSlide i.val).contentFontSize = pt 24 ∧
        (nthSlide i.val).contentAnchor = Anchor.middle ∧
        (nthSlide i.val).titleFontSize = pt 44) := by
  decide

/-- Witness for C10: the first generated slide is the one titled
ColabVibe, and the theorem instantiated there yields its special
formatting — centered 24pt content with middle anchor under a 44pt
title. -/
theorem content_formatting_witness :
    (nthSlide 0).contentAlign = Align.center ∧
    (nthSlide 0).contentFontSize = pt 24 ∧
    (nthSlide 0).contentAnchor = Anchor.middle ∧
    (nthSlide 0).titleFontSize = pt 44 :=
  (content_formatting ⟨0, by decide⟩).2 (by decide)

end Covibes
